import Mathlib

/-!
Shallow embedding of the crawl-task orchestrator of `fastapi-scrapy-demo`:
the task registry and state machine of `app/spiders/spider_runner.py`
(`AsyncSpiderRunner`), the result pagination endpoint of
`app/api/endpoints/spiders.py` (`get_crawl_results`), and the fixed-window
rate limiter of `app/api/dependencies.py` (`RateLimiter.__call__`).

Python dictionaries are embedded as functions `String → Option _`; the Redis
list store as a function from keys to lists with a separate expiry map; event
loop timestamps as `Nat`.  Redis unavailability is a `Bool` parameter
(`redisUp`): when it is `false` every Redis command of the modelled operation
raises, which the embedding propagates exactly as the Python code does
(swallowed by a bare `except` in `store_crawl_results`, re-raised as an
HTTP 500 in `get_crawl_results`).
-/

namespace SpiderDemo

/-- Task statuses actually assigned by `spider_runner.py`.  The code stores
them as the literal strings given by `TaskStatus.str`; no other status string
ever appears in the source. -/
inductive TaskStatus
  | running
  | stopping
  | completed
  | failed
  | stopped
  deriving DecidableEq, Repr

/-- The literal status string the Python code stores for each status. -/
def TaskStatus.str : TaskStatus → String
  | .running => "running"
  | .stopping => "stopping"
  | .completed => "completed"
  | .failed => "failed"
  | .stopped => "stopped"

/-- One entry of `AsyncSpiderRunner.active_tasks`: the dict created in
`run_spider` plus the keys added later (`end_time`, `failure_reason`,
`items_count`), absent keys being `none`. -/
structure TaskRecord where
  spider_name : String
  status : TaskStatus
  kwargs : List (String × String)
  start_time : Nat
  items : List String
  end_time : Option Nat
  failure_reason : Option String
  items_count : Option Nat
  deriving DecidableEq, Repr

/-- The mutable state of the orchestrator: the `active_tasks` dict of the
`AsyncSpiderRunner` singleton plus the Redis keyspace it shares with the
results endpoint (`redisLists` for the `RPUSH`/`LRANGE`/`LLEN` lists,
`redisExpiry` for the per-key `EXPIRE` deadline). -/
structure RunnerState where
  active_tasks : String → Option TaskRecord
  redisLists : String → List String
  redisExpiry : String → Option Nat

/-- `self.active_tasks[task_id] = record` (dict assignment). -/
def setTask (st : RunnerState) (task_id : String) (r : TaskRecord) : RunnerState :=
  { st with active_tasks := fun t => if t = task_id then some r else st.active_tasks t }

/-- The empty orchestrator state at process start: no tasks, empty Redis. -/
def initialState : RunnerState :=
  { active_tasks := fun _ => none, redisLists := fun _ => [], redisExpiry := fun _ => none }

/-- `AsyncSpiderRunner.run_spider`: generates `task_id` (the fresh uuid is a
parameter here), inserts the new task record with status `"running"`,
`start_time` set to the current loop time and an empty `items` list, spawns
the background crawl, and returns the id. -/
def runSpider (st : RunnerState) (spider_name : String) (kwargs : List (String × String))
    (now : Nat) (task_id : String) : String × RunnerState :=
  (task_id, setTask st task_id
    { spider_name := spider_name
      status := .running
      kwargs := kwargs
      start_time := now
      items := []
      end_time := none
      failure_reason := none
      items_count := none })

/-- `AsyncSpiderRunner._update_task_status`: if the task exists, overwrite
`status`, set `end_time` to the current loop time, and when the new status is
`"failed"` and the result is truthy record it as `failure_reason`. -/
def updateTaskStatus (st : RunnerState) (task_id : String) (status : TaskStatus)
    (result : Option String) (now : Nat) : RunnerState :=
  match st.active_tasks task_id with
  | none => st
  | some r =>
      setTask st task_id
        { r with
          status := status
          end_time := some now
          failure_reason :=
            if status = .failed then
              match result with
              | some s => if s = "" then r.failure_reason else some s
              | none => r.failure_reason
            else r.failure_reason }

/-- The guard shared by both crawl callbacks:
`task_id in self.active_tasks and self.active_tasks[task_id]['status'] in
('stopping', 'stopped')`. -/
def stopGuard (st : RunnerState) (task_id : String) : Bool :=
  match st.active_tasks task_id with
  | some r => r.status = .stopping || r.status = .stopped
  | none => false

/-- `AsyncSpiderRunner._on_spider_success`: ignored when the stop guard
holds, otherwise marks the task `"completed"`. -/
def onSpiderSuccess (st : RunnerState) (task_id : String) (result : Option String)
    (now : Nat) : RunnerState :=
  if stopGuard st task_id then st
  else updateTaskStatus st task_id .completed result now

/-- `AsyncSpiderRunner._on_spider_error`: ignored when the stop guard holds,
otherwise marks the task `"failed"` with `str(failure.value)` as the reason. -/
def onSpiderError (st : RunnerState) (task_id : String) (errorMsg : String)
    (now : Nat) : RunnerState :=
  if stopGuard st task_id then st
  else updateTaskStatus st task_id .failed (some errorMsg) now

/-- `AsyncSpiderRunner._handle_spider_exception`: marks the task failed. -/
def handleSpiderException (st : RunnerState) (task_id : String) (error : String)
    (now : Nat) : RunnerState :=
  updateTaskStatus st task_id .failed (some error) now

/-- `AsyncSpiderRunner.store_crawl_results`, with `redisUp` saying whether the
Redis pipeline `execute` succeeds.  On success the items are `RPUSH`ed onto
`crawl_results:{task_id}`, the key expiry is reset to one hour from now, and
`items_count` is OVERWRITTEN with `len(items)` (the size of this batch only).
Every exception — Redis down, or the `KeyError` when `task_id` is not in
`active_tasks` — is caught by the bare `except` and only logged, so the
function always returns a state and never signals failure to its caller. -/
def storeCrawlResults (redisUp : Bool) (st : RunnerState) (task_id : String)
    (items : List String) (now : Nat) : RunnerState :=
  if redisUp then
    let key := "crawl_results:" ++ task_id
    let st1 : RunnerState :=
      { st with
        redisLists := fun k => if k = key then st.redisLists key ++ items else st.redisLists k
        redisExpiry := fun k => if k = key then some (now + 3600) else st.redisExpiry k }
    match st1.active_tasks task_id with
    | some r => setTask st1 task_id { r with items_count := some items.length }
    | none => st1
  else st

/-- `AsyncSpiderRunner.get_task_status`: `self.active_tasks.get(task_id)`. -/
def getTaskStatus (st : RunnerState) (task_id : String) : Option TaskRecord :=
  st.active_tasks task_id

/-- `AsyncSpiderRunner.get_all_tasks`: returns the task map. -/
def getAllTasks (st : RunnerState) : String → Option TaskRecord :=
  st.active_tasks

/-- First half of `AsyncSpiderRunner.stop_task`, up to the suspension point
`await d`: returns `False` without touching anything when the task is unknown
or not `"running"`; otherwise, when a crawler with this `task_id` is found
(`crawlerFound`), sets status `"stopping"` and returns `True` (the
finalization happens after the await, see `stopTaskFinalize`); when no
crawler is found, defensively finalizes the task to `"stopped"` with
`end_time` and returns `True`. -/
def stopTaskBegin (crawlerFound : Bool) (st : RunnerState) (task_id : String)
    (now : Nat) : Bool × RunnerState :=
  match st.active_tasks task_id with
  | none => (false, st)
  | some r =>
      if r.status ≠ .running then (false, st)
      else if crawlerFound then
        (true, setTask st task_id { r with status := .stopping })
      else
        (true, setTask st task_id { r with status := .stopped, end_time := some now })

/-- The `finally` block of `stop_task`'s crawler branch, run after `await d`:
sets status `"stopped"` and `end_time` unconditionally. -/
def stopTaskFinalize (st : RunnerState) (task_id : String) (now : Nat) : RunnerState :=
  match st.active_tasks task_id with
  | none => st
  | some r => setTask st task_id { r with status := .stopped, end_time := some now }

/-- `AsyncSpiderRunner.stop_task` as one operation (no callback interleaves
during the `await`): begin, and when a crawler was found and the guard
passed, finalize. -/
def stopTask (crawlerFound : Bool) (st : RunnerState) (task_id : String)
    (now : Nat) : Bool × RunnerState :=
  let b := stopTaskBegin crawlerFound st task_id now
  if b.1 && crawlerFound then (true, stopTaskFinalize b.2 task_id now) else b

/-- Redis `LRANGE key start stop` on the embedded list (both indices
inclusive, clamped to the list; `start ≥ 0` as guaranteed by the endpoint's
query validation). -/
def lrange (l : List String) (start stop : Nat) : List String :=
  (l.drop start).take (stop + 1 - start)

/-- The pagination payload built by the `get_crawl_results` endpoint. -/
structure PageResult where
  task_id : String
  items : List String
  start : Nat
  limit : Nat
  total : Nat
  has_more : Bool
  deriving DecidableEq, Repr

/-- `GET /results/{task_id}` (`get_crawl_results` in
`app/api/endpoints/spiders.py`): reads
`LRANGE crawl_results:{task_id} start (start+limit-1)` and
`LLEN crawl_results:{task_id}`, and reports
`has_more = start + limit < total`.  FastAPI validates `start ≥ 0` and
`1 ≤ limit ≤ 1000` before the handler runs.  When Redis is unavailable the
handler's `except` re-raises as `HTTPException(status_code=500)`, modelled as
`Except.error 500`. -/
def getCrawlResults (redisUp : Bool) (st : RunnerState) (task_id : String)
    (start limit : Nat) : Except Nat PageResult :=
  if redisUp then
    let key := "crawl_results:" ++ task_id
    let l := st.redisLists key
    Except.ok
      { task_id := task_id
        items := lrange l start (start + limit - 1)
        start := start
        limit := limit
        total := l.length
        has_more := decide (start + limit < l.length) }
  else Except.error 500

/-! ### Rate limiter (`app/api/dependencies.py`, `RateLimiter.__call__`) -/

/-- The Redis state behind one `rate_limit:{client_ip}` key: `none` when the
key is absent, otherwise the counter value and the absolute expiry deadline
set by `SETEX` (the key is live while `now < deadline`; `INCR` does not touch
the TTL). -/
def rlLive (st : Option (Nat × Nat)) (now : Nat) : Option (Nat × Nat) :=
  match st with
  | some (c, exp) => if now < exp then some (c, exp) else none
  | none => none

/-- One call of `RateLimiter.__call__` with ceiling `limit` at time `now`:
`GET` the counter; if absent (or expired), `SETEX key 60 1` and admit; if the
counter has reached the ceiling, reject with HTTP 429 (`false`) leaving the
key untouched; otherwise `INCR` and admit.  Returns (admitted?, new key
state). -/
def rateLimiterCall (limit : Nat) (now : Nat) (st : Option (Nat × Nat)) :
    Bool × Option (Nat × Nat) :=
  match rlLive st now with
  | none => (true, some (1, now + 60))
  | some (c, exp) => if limit ≤ c then (false, st) else (true, some (c + 1, exp))

/-- Runs a sequence of requests (given by their arrival times) through the
rate limiter, collecting the admit/reject decision of each. -/
def rlRun (limit : Nat) (st : Option (Nat × Nat)) : List Nat → List Bool × Option (Nat × Nat)
  | [] => ([], st)
  | t :: ts =>
      let b := rateLimiterCall limit t st
      let rest := rlRun limit b.2 ts
      (b.1 :: rest.1, rest.2)

/-! ### Registry operations as a transition system -/

/-- One registry operation, for stating invariants over arbitrary operation
sequences.  `create` carries the fresh uuid as data; `beginStop` and
`finalizeStop` are the two halves of `stop_task` around its `await`, so that
callback interleavings during a stop are expressible; `store` carries the
Redis availability of that call. -/
inductive Op
  | create (spider_name : String) (kwargs : List (String × String)) (now : Nat) (task_id : String)
  | success (task_id : String) (result : Option String) (now : Nat)
  | error (task_id : String) (msg : String) (now : Nat)
  | beginStop (crawlerFound : Bool) (task_id : String) (now : Nat)
  | finalizeStop (task_id : String) (now : Nat)
  | store (redisUp : Bool) (task_id : String) (items : List String) (now : Nat)

/-- Applies one registry operation to the orchestrator state. -/
def applyOp (st : RunnerState) : Op → RunnerState
  | .create spider kwargs now id => (runSpider st spider kwargs now id).2
  | .success id result now => onSpiderSuccess st id result now
  | .error id msg now => onSpiderError st id msg now
  | .beginStop cf id now => (stopTaskBegin cf st id now).2
  | .finalizeStop id now => stopTaskFinalize st id now
  | .store up id items now => storeCrawlResults up st id items now

/-- Applies a sequence of registry operations in order. -/
def runOps (st : RunnerState) (ops : List Op) : RunnerState :=
  ops.foldl applyOp st

/-- The terminal statuses of the spec's state machine. -/
def TaskStatus.isTerminal : TaskStatus → Bool
  | .completed => true
  | .failed => true
  | .stopped => true
  | _ => false

/-- Per-record invariant: `end_time` is present iff the status is terminal. -/
def TaskRecord.endTimeIffTerminal (r : TaskRecord) : Prop :=
  r.end_time.isSome ↔ r.status.isTerminal = true

/-- State invariant: every live task record satisfies
`TaskRecord.endTimeIffTerminal`. -/
def StateInv (st : RunnerState) : Prop :=
  ∀ id r, st.active_tasks id = some r → r.endTimeIffTerminal

/-- The task id an operation addresses. -/
def Op.target : Op → String
  | .create _ _ _ id => id
  | .success id _ _ => id
  | .error id _ _ => id
  | .beginStop _ id _ => id
  | .finalizeStop id _ => id
  | .store _ id _ _ => id

/-- Whether the operation is a `create` of precisely this task id — the only
operation that could install a fresh record over an existing one, which the
real system rules out by generating a fresh uuid4 per launch. -/
def Op.isCreateOf : Op → String → Bool
  | .create _ _ _ tid, id => tid = id
  | _, _ => false

/-- A stop has been requested for this task: its status is STOPPING or
already STOPPED. -/
def StopRequested (st : RunnerState) (id : String) : Prop :=
  ∃ r, st.active_tasks id = some r ∧ (r.status = .stopping ∨ r.status = .stopped)

/-! ## Claims -/

/-- C7 counterexample: `run_spider` stores the literal status string
`"running"` for a freshly created task, never `"pending"`; no `"pending"`
status exists anywhere in the code, refuting the claim that PENDING is the
initial state. -/
theorem c7_initial_status_is_running_not_pending :
    (((runSpider initialState "s1" [] 0 "t").2.active_tasks "t").map
      (fun r => r.status.str)) = some "running" ∧ "running" ≠ "pending" := by
  constructor
  · rfl
  · decide

/-- C7 (amended): `run_spider` allocates the new task record with initial
status RUNNING (the only status the code ever assigns at creation), records
`start_time` and an empty item list with no `end_time`, and returns the
freshly generated `task_id`. -/
theorem c7_runSpider_creates_running_record (st : RunnerState) (spider : String)
    (kwargs : List (String × String)) (now : Nat) (id : String) :
    (runSpider st spider kwargs now id).1 = id ∧
    (runSpider st spider kwargs now id).2.active_tasks id =
      some { spider_name := spider, status := .running, kwargs := kwargs,
             start_time := now, items := [], end_time := none,
             failure_reason := none, items_count := none } := by
  refine ⟨rfl, ?_⟩
  simp [runSpider, setTask]

/-- C5 counterexample: when Redis is unavailable, `store_crawl_results`
returns with the state unchanged — the batch is dropped and no error of any
kind reaches the caller (the bare `except` only logs), refuting the claim
that the append operation surfaces a transient-infrastructure error. -/
theorem c5_store_swallows_cache_failure :
    storeCrawlResults false (runSpider initialState "s1" [] 0 "a").2 "a" ["rec"] 1 =
      (runSpider initialState "s1" [] 0 "a").2 := rfl

/-- C5 (amended): when the cache is unavailable the pagination read fails
with an HTTP 500 error surfaced to its caller, but the record append
catches the failure internally and returns silently with the state
unchanged: the records are dropped and no error reaches its caller. -/
theorem c5_cache_unavailable_behavior (st : RunnerState) (id : String)
    (items : List String) (now start limit : Nat) :
    getCrawlResults false st id start limit = Except.error 500 ∧
    storeCrawlResults false st id items now = st :=
  ⟨rfl, rfl⟩

/-- C6: with Redis available, `get_crawl_results` returns exactly the slice
`[start, start+limit)` of the stored list in insertion order together with
the total count, reports `has_more = false` whenever `start + limit` reaches
the end, and the pages `(0,10)` and `(10,10)` concatenate to the first 20
records (hence never overlap and together cover them). -/
theorem c6_getCrawlResults_paginates (st : RunnerState) (tid : String)
    (start limit : Nat) (h1 : 1 ≤ limit) (h2 : limit ≤ 1000) :
    ∃ p : PageResult,
      getCrawlResults true st tid start limit = Except.ok p ∧
      p.items = ((st.redisLists ("crawl_results:" ++ tid)).drop start).take limit ∧
      p.total = (st.redisLists ("crawl_results:" ++ tid)).length ∧
      ((st.redisLists ("crawl_results:" ++ tid)).length ≤ start + limit →
        p.has_more = false) ∧
      (∀ p1 p2 : PageResult,
        getCrawlResults true st tid 0 10 = Except.ok p1 →
        getCrawlResults true st tid 10 10 = Except.ok p2 →
        p1.items ++ p2.items = (st.redisLists ("crawl_results:" ++ tid)).take 20) := by
  have hslice : ∀ s : Nat, start + limit - 1 + 1 - start = limit := by
    intro s; omega
  refine ⟨_, rfl, ?_, rfl, ?_, ?_⟩
  · show lrange _ start (start + limit - 1) = _
    unfold lrange
    rw [hslice 0]
  · intro hle
    show decide (start + limit < (st.redisLists ("crawl_results:" ++ tid)).length) = false
    simp only [decide_eq_false_iff_not, not_lt]
    omega
  · intro p1 p2 hp1 hp2
    simp only [getCrawlResults, if_pos, Except.ok.injEq] at hp1 hp2
    rw [← hp1, ← hp2]
    show lrange _ 0 (0 + 10 - 1) ++ lrange _ 10 (10 + 10 - 1) = _
    unfold lrange
    have h20 := List.take_add (st.redisLists ("crawl_results:" ++ tid)) 10 10
    simpa using h20.symm

/-- C6 witness: a concrete three-record store read back with
`start = 0, limit = 10`. -/
theorem c6_witness :
    1 ≤ 10 ∧ (10 : Nat) ≤ 1000 ∧
    ∃ p : PageResult,
      getCrawlResults true (storeCrawlResults true initialState "t" ["x", "y", "z"] 0)
          "t" 0 10 = Except.ok p ∧
      p.items = (((storeCrawlResults true initialState "t" ["x", "y", "z"] 0).redisLists
          ("crawl_results:" ++ "t")).drop 0).take 10 ∧
      p.total = ((storeCrawlResults true initialState "t" ["x", "y", "z"] 0).redisLists
          ("crawl_results:" ++ "t")).length ∧
      (((storeCrawlResults true initialState "t" ["x", "y", "z"] 0).redisLists
          ("crawl_results:" ++ "t")).length ≤ 0 + 10 → p.has_more = false) ∧
      (∀ p1 p2 : PageResult,
        getCrawlResults true (storeCrawlResults true initialState "t" ["x", "y", "z"] 0)
          "t" 0 10 = Except.ok p1 →
        getCrawlResults true (storeCrawlResults true initialState "t" ["x", "y", "z"] 0)
          "t" 10 10 = Except.ok p2 →
        p1.items ++ p2.items = ((storeCrawlResults true initialState "t" ["x", "y", "z"] 0).redisLists
          ("crawl_results:" ++ "t")).take 20) :=
  ⟨by decide, by decide,
    c6_getCrawlResults_paginates (storeCrawlResults true initialState "t" ["x", "y", "z"] 0)
      "t" 0 10 (by decide) (by decide)⟩

/-- Running the rate limiter over a concatenation of request sequences runs
them in order, threading the key state. -/
theorem rlRun_append (c : Nat) (st : Option (Nat × Nat)) (l1 l2 : List Nat) :
    rlRun c st (l1 ++ l2) =
      ((rlRun c st l1).1 ++ (rlRun c (rlRun c st l1).2 l2).1,
        (rlRun c (rlRun c st l1).2 l2).2) := by
  induction l1 generalizing st with
  | nil => simp [rlRun]
  | cons h l ih => simp [rlRun, ih]

/-- While the counter stays strictly below the ceiling, every request inside
the window is admitted and increments the counter, leaving the expiry
untouched. -/
theorem rlRun_replicate_incr (c t : Nat) :
    ∀ m k, k + m ≤ c →
      rlRun c (some (k, t + 60)) (List.replicate m t) =
        (List.replicate m true, some (k + m, t + 60)) := by
  intro m
  induction m with
  | zero => intro k h; simp [rlRun]
  | succ n ih =>
      intro k h
      have hstep : rateLimiterCall c t (some (k, t + 60)) = (true, some (k + 1, t + 60)) := by
        simp [rateLimiterCall, rlLive, show t < t + 60 by omega,
          show ¬ c ≤ k by omega]
      rw [List.replicate_succ]
      simp only [rlRun, hstep]
      rw [ih (k + 1) (by omega)]
      simp only [List.replicate_succ, Prod.mk.injEq, Option.some.injEq, true_and, and_true]
      omega

/-- C8: for any ceiling `c ≥ 1` and any window start `t`: the first request
of a window sets the counter to 1 with a 60-second expiry and is admitted;
each later request inside the window increments the counter while it is
below the ceiling; of `c + 1` requests inside one window the first `c` are
admitted and the `(c+1)`-th is rejected with the counter left at `c`; and
once the window has expired the next request is admitted with the counter
reset to 1. -/
theorem c8_rate_limiter_window (c t : Nat) (hc : 1 ≤ c) :
    rateLimiterCall c t none = (true, some (1, t + 60)) ∧
    (∀ k, k < c → rateLimiterCall c t (some (k, t + 60)) = (true, some (k + 1, t + 60))) ∧
    (rlRun c none (List.replicate (c + 1) t)).1 = List.replicate c true ++ [false] ∧
    (rlRun c none (List.replicate (c + 1) t)).2 = some (c, t + 60) ∧
    (∀ t2, t + 60 ≤ t2 →
      rateLimiterCall c t2 (some (c, t + 60)) = (true, some (1, t2 + 60))) := by
  have hrun : rlRun c none (List.replicate (c + 1) t) =
      (List.replicate c true ++ [false], some (c, t + 60)) := by
    obtain ⟨c', rfl⟩ : ∃ c', c = c' + 1 := ⟨c - 1, by omega⟩
    have hfirst : rateLimiterCall (c' + 1) t none = (true, some (1, t + 60)) := rfl
    have hlast : rateLimiterCall (c' + 1) t (some (1 + c', t + 60)) =
        (false, some (1 + c', t + 60)) := by
      simp [rateLimiterCall, rlLive, show t < t + 60 by omega, show c' + 1 ≤ 1 + c' by omega]
    rw [List.replicate_succ, List.replicate_succ']
    simp only [rlRun, hfirst]
    rw [rlRun_append, rlRun_replicate_incr (c' + 1) t c' 1 (by omega)]
    simp only [rlRun, hlast]
    simp only [List.replicate_succ, Prod.mk.injEq, Option.some.injEq, List.cons_append,
      true_and, and_true]
    omega
  refine ⟨rfl, ?_, by rw [hrun], by rw [hrun], ?_⟩
  · intro k hk
    simp [rateLimiterCall, rlLive, show t < t + 60 by omega, show ¬ c ≤ k by omega]
  · intro t2 h2
    simp [rateLimiterCall, rlLive, show ¬ t2 < t + 60 by omega]

/-- C8 witness: ceiling 3, window starting at time 0 — the first three
requests are admitted and the fourth rejected. -/
theorem c8_witness :
    1 ≤ 3 ∧
    (rlRun 3 none (List.replicate 4 0)).1 = List.replicate 3 true ++ [false] :=
  ⟨by decide, (c8_rate_limiter_window 3 0 (by decide)).2.2.1⟩

/-- Looking up the key just assigned returns the assigned record. -/
theorem setTask_get_self (st : RunnerState) (id : String) (r : TaskRecord) :
    (setTask st id r).active_tasks id = some r := by
  simp [setTask]

/-- Assigning the same key twice keeps only the second record. -/
theorem setTask_setTask (st : RunnerState) (id : String) (a b : TaskRecord) :
    setTask (setTask st id a) id b = setTask st id b := by
  simp only [setTask]
  congr 1
  funext t
  by_cases h : t = id <;> simp [h]

/-- Helper for C9: a stop of a RUNNING task returns `True` and — whether a
live crawler was found (stopping then finalizing) or not (defensive
finalization) — leaves the record finalized to STOPPED with `end_time`. -/
theorem stopTask_of_running (st : RunnerState) (id : String) (r : TaskRecord)
    (cf : Bool) (now : Nat) (h : st.active_tasks id = some r)
    (hr : r.status = .running) :
    stopTask cf st id now =
      (true, setTask st id { r with status := .stopped, end_time := some now }) := by
  cases cf with
  | false =>
      simp [stopTask, stopTaskBegin, h, hr]
  | true =>
      simp only [stopTask, stopTaskBegin, h, hr]
      simp only [ne_eq, not_true_eq_false, if_false, reduceIte, Bool.and_self, if_true]
      simp only [stopTaskFinalize, setTask_get_self, setTask_setTask]

/-- Helper for C9: a stop of an unknown task, or of a task whose status is
not RUNNING, returns `False` and leaves the state untouched. -/
theorem stopTask_not_running (st : RunnerState) (id : String) (cf : Bool) (now : Nat)
    (h : ∀ r, st.active_tasks id = some r → r.status ≠ .running) :
    stopTask cf st id now = (false, st) := by
  simp only [stopTask, stopTaskBegin]
  cases hl : st.active_tasks id with
  | none => simp
  | some r =>
      have := h r hl
      simp [this]

/-- C9: `stop_task` returns `False` and changes nothing when the task is
unknown or not RUNNING; on a RUNNING task it returns `True`, a second stop
afterwards returns `False` without further side effects, and when no live
crawler handle is found the task is still defensively finalized to STOPPED
with `end_time` set. -/
theorem c9_stop_task_contract (st : RunnerState) (id : String) (cf cf2 : Bool)
    (now now2 : Nat) :
    (st.active_tasks id = none → stopTask cf st id now = (false, st)) ∧
    (∀ r, st.active_tasks id = some r → r.status ≠ .running →
      stopTask cf st id now = (false, st)) ∧
    (∀ r, st.active_tasks id = some r → r.status = .running →
      (stopTask cf st id now).1 = true ∧
      stopTask cf2 (stopTask cf st id now).2 id now2 = (false, (stopTask cf st id now).2) ∧
      (stopTask cf st id now).2.active_tasks id =
        some { r with status := .stopped, end_time := some now }) := by
  refine ⟨?_, ?_, ?_⟩
  · intro h
    exact stopTask_not_running st id cf now (fun r hr => by rw [h] at hr; cases hr)
  · intro r hr hs
    exact stopTask_not_running st id cf now
      (fun r' hr' => by rw [hr] at hr'; cases hr'; exact hs)
  · intro r hr hs
    rw [stopTask_of_running st id r cf now hr hs]
    refine ⟨rfl, ?_, setTask_get_self ..⟩
    refine stopTask_not_running _ id cf2 now2 (fun r' hr' => ?_)
    rw [setTask_get_self] at hr'
    cases hr'
    simp

/-- C9 witness: stop of an unknown task, of a COMPLETED task, and of a
RUNNING task with no crawler handle, on concrete states. -/
theorem c9_witness :
    stopTask true initialState "b" 7 = (false, initialState) ∧
    stopTask true (onSpiderSuccess (runSpider initialState "s" [] 0 "a").2 "a" none 1)
        "a" 7 =
      (false, onSpiderSuccess (runSpider initialState "s" [] 0 "a").2 "a" none 1) ∧
    (stopTask false (runSpider initialState "s" [] 0 "a").2 "a" 7).1 = true ∧
    stopTask true (stopTask false (runSpider initialState "s" [] 0 "a").2 "a" 7).2 "a" 9 =
      (false, (stopTask false (runSpider initialState "s" [] 0 "a").2 "a" 7).2) ∧
    (stopTask false (runSpider initialState "s" [] 0 "a").2 "a" 7).2.active_tasks "a" =
      some { spider_name := "s", status := .stopped, kwargs := [], start_time := 0,
             items := [], end_time := some 7, failure_reason := none,
             items_count := none } := by
  refine ⟨(c9_stop_task_contract initialState "b" true true 7 9).1 rfl, ?_, ?_⟩
  · exact (c9_stop_task_contract _ "a" true true 7 9).2.1
      { spider_name := "s", status := .completed, kwargs := [], start_time := 0,
        items := [], end_time := some 1, failure_reason := none, items_count := none }
      (by rfl) (by decide)
  · have h := (c9_stop_task_contract (runSpider initialState "s" [] 0 "a").2 "a"
      false true 7 9).2.2
      { spider_name := "s", status := .running, kwargs := [], start_time := 0,
        items := [], end_time := none, failure_reason := none, items_count := none }
      (by rfl) (by decide)
    refine ⟨h.1, h.2.1, ?_⟩
    rw [h.2.2]

/-- Helper: dict assignment never removes any key from the task map. -/
theorem setTask_isSome (st : RunnerState) (id : String) (r : TaskRecord) (t : String)
    (h : (st.active_tasks t).isSome) : ((setTask st id r).active_tasks t).isSome := by
  simp only [setTask]
  by_cases ht : t = id <;> simp [ht, h]

/-- Helper: `_update_task_status` never removes any key from the task map. -/
theorem updateTaskStatus_isSome (st : RunnerState) (id : String) (s : TaskStatus)
    (res : Option String) (now : Nat) (t : String)
    (h : (st.active_tasks t).isSome) :
    ((updateTaskStatus st id s res now).active_tasks t).isSome := by
  unfold updateTaskStatus
  cases st.active_tasks id with
  | none => exact h
  | some r => exact setTask_isSome st id _ t h

/-- Helper for C10: no single registry operation removes a task record. -/
theorem applyOp_isSome (st : RunnerState) (op : Op) (t : String)
    (h : (st.active_tasks t).isSome) : ((applyOp st op).active_tasks t).isSome := by
  cases op with
  | create spider kwargs now id =>
      simp only [applyOp, runSpider]
      exact setTask_isSome st id _ t h
  | success id res now =>
      simp only [applyOp, onSpiderSuccess]
      split
      · exact h
      · exact updateTaskStatus_isSome st id _ res now t h
  | error id msg now =>
      simp only [applyOp, onSpiderError]
      split
      · exact h
      · exact updateTaskStatus_isSome st id _ _ now t h
  | beginStop cf id now =>
      simp only [applyOp, stopTaskBegin]
      cases hl : st.active_tasks id with
      | none => exact h
      | some r =>
          by_cases hs : r.status = TaskStatus.running
          · by_cases hcf : cf = true <;> simp [hs, hcf, setTask_isSome, h]
          · simp [hs, h]
  | finalizeStop id now =>
      simp only [applyOp, stopTaskFinalize]
      cases hl : st.active_tasks id with
      | none => exact h
      | some r => exact setTask_isSome st id _ t h
  | store up id items now =>
      simp only [applyOp, storeCrawlResults]
      by_cases hup : up = true
      · simp only [hup, if_true]
        cases hl : (st.active_tasks id) with
        | none => simpa using h
        | some r =>
            simp only [hl]
            exact setTask_isSome _ id _ t h
      · simp [hup, h]

/-- C10: a task record, once created, is never evicted — after any further
sequence of registry operations, `get_task_status` still returns a record
for it and it is still present in the map returned by `get_all_tasks`. -/
theorem c10_tasks_never_evicted (ops : List Op) (st : RunnerState) (id : String)
    (h : (getTaskStatus st id).isSome = true) :
    (getTaskStatus (runOps st ops) id).isSome = true ∧
    (getAllTasks (runOps st ops) id).isSome = true := by
  have key : ∀ (l : List Op) (s : RunnerState), (s.active_tasks id).isSome →
      ((runOps s l).active_tasks id).isSome := by
    intro l
    induction l with
    | nil => intro s hs; exact hs
    | cons op rest ih =>
        intro s hs
        exact ih (applyOp s op) (applyOp_isSome s op id hs)
  exact ⟨key ops st h, key ops st h⟩

/-- C10 witness: a concrete task survives a completion callback, a stop
attempt, a finalize, and a result ingest. -/
theorem c10_witness :
    (getTaskStatus (runSpider initialState "s" [] 0 "a").2 "a").isSome = true ∧
    ((getTaskStatus (runOps (runSpider initialState "s" [] 0 "a").2
        [Op.success "a" none 1, Op.beginStop true "a" 2, Op.finalizeStop "a" 3,
         Op.store true "a" ["x"] 4]) "a").isSome = true ∧
      (getAllTasks (runOps (runSpider initialState "s" [] 0 "a").2
        [Op.success "a" none 1, Op.beginStop true "a" 2, Op.finalizeStop "a" 3,
         Op.store true "a" ["x"] 4]) "a").isSome = true) :=
  ⟨by decide,
    c10_tasks_never_evicted
      [Op.success "a" none 1, Op.beginStop true "a" 2, Op.finalizeStop "a" 3,
       Op.store true "a" ["x"] 4]
      (runSpider initialState "s" [] 0 "a").2 "a" (by decide)⟩

/-- Looking up any other key is unaffected by a dict assignment. -/
theorem setTask_get_other (st : RunnerState) (id : String) (r : TaskRecord)
    (t : String) (h : t ≠ id) :
    (setTask st id r).active_tasks t = st.active_tasks t := by
  simp [setTask, h]

/-- `_update_task_status` touches no record other than its target. -/
theorem updateTaskStatus_get_other (st : RunnerState) (id : String) (s : TaskStatus)
    (res : Option String) (now : Nat) (t : String) (h : t ≠ id) :
    (updateTaskStatus st id s res now).active_tasks t = st.active_tasks t := by
  unfold updateTaskStatus
  cases st.active_tasks id with
  | none => rfl
  | some r => exact setTask_get_other st id _ t h

/-- The callback guard evaluates true exactly when a stop has been requested
for the task. -/
theorem stopGuard_true_of (st : RunnerState) (id : String) (r : TaskRecord)
    (h : st.active_tasks id = some r)
    (hs : r.status = .stopping ∨ r.status = .stopped) :
    stopGuard st id = true := by
  rcases hs with h1 | h1 <;> simp [stopGuard, h, h1]

/-- No registry operation touches a record other than its target's. -/
theorem applyOp_get_other (st : RunnerState) (op : Op) (t : String)
    (ht : op.target ≠ t) :
    (applyOp st op).active_tasks t = st.active_tasks t := by
  cases op with
  | create spider kwargs now id =>
      simp only [applyOp, runSpider]
      exact setTask_get_other st id _ t (fun hh => ht hh.symm)
  | success id res now =>
      simp only [applyOp, onSpiderSuccess]
      split
      · rfl
      · exact updateTaskStatus_get_other st id _ res now t (fun hh => ht hh.symm)
  | error id msg now =>
      simp only [applyOp, onSpiderError]
      split
      · rfl
      · exact updateTaskStatus_get_other st id _ _ now t (fun hh => ht hh.symm)
  | beginStop cf id now =>
      simp only [applyOp, stopTaskBegin]
      cases hl : st.active_tasks id with
      | none => rfl
      | some r =>
          have hne : t ≠ id := fun hh => ht hh.symm
          by_cases hs : r.status = TaskStatus.running
          · by_cases hcf : cf = true <;>
              simp [hs, hcf, setTask_get_other st id _ t hne]
          · simp [hs]
  | finalizeStop id now =>
      simp only [applyOp, stopTaskFinalize]
      cases hl : st.active_tasks id with
      | none => rfl
      | some r => exact setTask_get_other st id _ t (fun hh => ht hh.symm)
  | store up id items now =>
      simp only [applyOp, storeCrawlResults]
      by_cases hup : up = true
      · simp only [hup, if_true]
        cases hl : (st.active_tasks id) with
        | none => simp
        | some r =>
            simp only [hl]
            exact setTask_get_other _ id _ t (fun hh => ht hh.symm)
      · simp [hup]

/-- Helper for C1: one registry operation that is not a `create` of this task
preserves an already requested stop — the status stays STOPPING or STOPPED. -/
theorem stopRequested_step (st : RunnerState) (op : Op) (id : String)
    (hop : op.isCreateOf id = false) (h : StopRequested st id) :
    StopRequested (applyOp st op) id := by
  obtain ⟨r, hl, hs⟩ := h
  by_cases ht : op.target = id
  · cases op with
    | create spider kwargs now tid =>
        exfalso
        have : tid = id := ht
        simp [Op.isCreateOf, this] at hop
    | success tid res now =>
        have : tid = id := ht
        subst this
        have hg := stopGuard_true_of st tid r hl hs
        simp only [applyOp, onSpiderSuccess, hg, if_true]
        exact ⟨r, hl, hs⟩
    | error tid msg now =>
        have : tid = id := ht
        subst this
        have hg := stopGuard_true_of st tid r hl hs
        simp only [applyOp, onSpiderError, hg, if_true]
        exact ⟨r, hl, hs⟩
    | beginStop cf tid now =>
        have : tid = id := ht
        subst this
        have hr : r.status ≠ TaskStatus.running := by
          rcases hs with h1 | h1 <;> simp [h1]
        simp only [applyOp, stopTaskBegin, hl]
        rw [if_pos hr]
        exact ⟨r, hl, hs⟩
    | finalizeStop tid now =>
        have : tid = id := ht
        subst this
        simp only [applyOp, stopTaskFinalize, hl]
        exact ⟨_, setTask_get_self .., Or.inr rfl⟩
    | store up tid items now =>
        have : tid = id := ht
        subst this
        simp only [applyOp, storeCrawlResults]
        by_cases hup : up = true
        · simp only [hup, if_true]
          have hl1 : st.active_tasks tid = some r := hl
          simp only [hl1]
          exact ⟨_, setTask_get_self .., by simpa using hs⟩
        · simp only [hup, if_false]
          exact ⟨r, by simpa [hup] using hl, hs⟩
  · exact ⟨r, by rw [applyOp_get_other st op id ht]; exact hl, hs⟩

/-- Helper for C1: an already requested stop survives any sequence of
registry operations that contains no `create` of this task id. -/
theorem stopRequested_runOps (ops : List Op) (st : RunnerState) (id : String)
    (hops : ∀ op ∈ ops, op.isCreateOf id = false) (h : StopRequested st id) :
    StopRequested (runOps st ops) id := by
  induction ops generalizing st with
  | nil => exact h
  | cons op rest ih =>
      exact ih (applyOp st op)
        (fun o ho => hops o (List.mem_cons_of_mem op ho))
        (stopRequested_step st op id (hops op (List.mem_cons_self op rest)) h)

/-- C1: once a stop has been requested (status STOPPING or STOPPED), a
completion or failure callback is ignored outright, the status stays
STOPPING or STOPPED under every further registry operation (never COMPLETED
or FAILED), and in the race scenario — stop begun on a RUNNING task, the
completion callback fires before the teardown acknowledgement, then the
stop finalizes — the final status is STOPPED. -/
theorem c1_stop_request_wins (st : RunnerState) (id : String) (r : TaskRecord)
    (res : Option String) (msg : String) (n1 n2 n3 : Nat)
    (h : st.active_tasks id = some r) :
    ((r.status = .stopping ∨ r.status = .stopped) →
      onSpiderSuccess st id res n1 = st ∧
      onSpiderError st id msg n1 = st ∧
      (∀ ops : List Op, (∀ op ∈ ops, op.isCreateOf id = false) →
        ∃ r', (runOps st ops).active_tasks id = some r' ∧
          (r'.status = .stopping ∨ r'.status = .stopped))) ∧
    (r.status = .running →
      (stopTaskBegin true st id n1).1 = true ∧
      ((stopTaskBegin true st id n1).2.active_tasks id).map TaskRecord.status =
        some .stopping ∧
      onSpiderSuccess (stopTaskBegin true st id n1).2 id res n2 =
        (stopTaskBegin true st id n1).2 ∧
      ((stopTaskFinalize (stopTaskBegin true st id n1).2 id n3).active_tasks id).map
        TaskRecord.status = some .stopped) := by
  constructor
  · intro hs
    have hg := stopGuard_true_of st id r h hs
    refine ⟨by simp [onSpiderSuccess, hg], by simp [onSpiderError, hg], ?_⟩
    intro ops hops
    exact stopRequested_runOps ops st id hops ⟨r, h, hs⟩
  · intro hr
    have hbeg : stopTaskBegin true st id n1 =
        (true, setTask st id { r with status := .stopping }) := by
      simp [stopTaskBegin, h, hr]
    refine ⟨by rw [hbeg], ?_, ?_, ?_⟩
    · rw [hbeg]
      rw [setTask_get_self]
      rfl
    · have hg : stopGuard (stopTaskBegin true st id n1).2 id = true := by
        rw [hbeg]
        exact stopGuard_true_of _ id _ (setTask_get_self ..) (Or.inl rfl)
      simp [onSpiderSuccess, hg]
    · rw [hbeg]
      simp only [stopTaskFinalize, setTask_get_self, setTask_setTask]
      rfl

/-- C1 witness: a concrete RUNNING task goes through the stop race — begin
stop, completion callback fires and is ignored, finalize — ending STOPPED;
and from the STOPPING state both callbacks are no-ops and a callback plus a
stray error keep the status in STOPPING/STOPPED. -/
theorem c1_witness :
    ((onSpiderSuccess (stopTaskBegin true (runSpider initialState "s" [] 0 "a").2 "a" 2).2
        "a" none 3 =
      (stopTaskBegin true (runSpider initialState "s" [] 0 "a").2 "a" 2).2) ∧
    (onSpiderError (stopTaskBegin true (runSpider initialState "s" [] 0 "a").2 "a" 2).2
        "a" "boom" 3 =
      (stopTaskBegin true (runSpider initialState "s" [] 0 "a").2 "a" 2).2) ∧
    (∃ r', (runOps (stopTaskBegin true (runSpider initialState "s" [] 0 "a").2 "a" 2).2
        [Op.success "a" none 3, Op.error "a" "x" 4]).active_tasks "a" = some r' ∧
      (r'.status = .stopping ∨ r'.status = .stopped))) ∧
    ((stopTaskBegin true (runSpider initialState "s" [] 0 "a").2 "a" 2).1 = true ∧
    ((stopTaskBegin true (runSpider initialState "s" [] 0 "a").2 "a" 2).2.active_tasks
        "a").map TaskRecord.status = some .stopping ∧
    onSpiderSuccess (stopTaskBegin true (runSpider initialState "s" [] 0 "a").2 "a" 2).2
        "a" none 3 =
      (stopTaskBegin true (runSpider initialState "s" [] 0 "a").2 "a" 2).2 ∧
    ((stopTaskFinalize (stopTaskBegin true (runSpider initialState "s" [] 0 "a").2
        "a" 2).2 "a" 4).active_tasks "a").map TaskRecord.status = some .stopped) :=
  ⟨((c1_stop_request_wins
      (stopTaskBegin true (runSpider initialState "s" [] 0 "a").2 "a" 2).2 "a"
      { spider_name := "s", status := .stopping, kwargs := [], start_time := 0,
        items := [], end_time := none, failure_reason := none, items_count := none }
      none "boom" 3 3 4 (by rfl)).1 (Or.inl rfl)).imp id
      (fun hx => hx.imp id (fun hy =>
        hy [Op.success "a" none 3, Op.error "a" "x" 4] (by decide))),
   (c1_stop_request_wins (runSpider initialState "s" [] 0 "a").2 "a"
      { spider_name := "s", status := .running, kwargs := [], start_time := 0,
        items := [], end_time := none, failure_reason := none, items_count := none }
      none "boom" 2 3 4 (by rfl)).2 rfl⟩

/-- C2 counterexample: the callback guard only protects STOPPING/STOPPED, so
a stray failure callback arriving after the terminal status COMPLETED
overwrites the status to FAILED — a transition out of a terminal state. -/
theorem c2_stray_callback_after_completed :
    ((onSpiderSuccess (runSpider initialState "s" [] 0 "a").2 "a" none 1).active_tasks
        "a").map TaskRecord.status = some .completed ∧
    TaskStatus.completed.isTerminal = true ∧
    ((onSpiderError (onSpiderSuccess (runSpider initialState "s" [] 0 "a").2 "a" none 1)
        "a" "boom" 2).active_tasks "a").map TaskRecord.status = some .failed ∧
    TaskStatus.failed ≠ TaskStatus.completed :=
  ⟨rfl, rfl, rfl, by decide⟩

/-- C2 (amended): only STOPPING and STOPPED are stable against every
operation — completion and failure callbacks are ignored there and a stop
returns `False` leaving the state unchanged; COMPLETED and FAILED are stable
against stop requests (which return `False` without side effects) but not
against stray callbacks, which can overwrite them. -/
theorem c2_terminal_stability (st : RunnerState) (id : String) (r : TaskRecord)
    (res : Option String) (msg : String) (cf : Bool) (n1 n2 : Nat)
    (h : st.active_tasks id = some r) :
    ((r.status = .stopping ∨ r.status = .stopped) →
      onSpiderSuccess st id res n1 = st ∧
      onSpiderError st id msg n1 = st ∧
      stopTask cf st id n2 = (false, st)) ∧
    ((r.status = .completed ∨ r.status = .failed) →
      stopTask cf st id n2 = (false, st)) := by
  constructor
  · intro hs
    have hg := stopGuard_true_of st id r h hs
    refine ⟨by simp [onSpiderSuccess, hg], by simp [onSpiderError, hg], ?_⟩
    apply stopTask_not_running st id cf n2
    intro r' hr'
    rw [h] at hr'
    cases hr'
    rcases hs with h1 | h1 <;> simp [h1]
  · intro hs
    apply stopTask_not_running st id cf n2
    intro r' hr'
    rw [h] at hr'
    cases hr'
    rcases hs with h1 | h1 <;> simp [h1]

/-- C2 witness: on concrete states, callbacks and a stop are no-ops on a
STOPPED task, and a stop on a COMPLETED task returns `False` unchanged. -/
theorem c2_witness :
    (onSpiderSuccess (stopTask false (runSpider initialState "s" [] 0 "a").2 "a" 2).2
        "a" none 3 =
      (stopTask false (runSpider initialState "s" [] 0 "a").2 "a" 2).2) ∧
    (onSpiderError (stopTask false (runSpider initialState "s" [] 0 "a").2 "a" 2).2
        "a" "e" 3 =
      (stopTask false (runSpider initialState "s" [] 0 "a").2 "a" 2).2) ∧
    (stopTask true (stopTask false (runSpider initialState "s" [] 0 "a").2 "a" 2).2
        "a" 3 =
      (false, (stopTask false (runSpider initialState "s" [] 0 "a").2 "a" 2).2)) ∧
    (stopTask true (onSpiderSuccess (runSpider initialState "s" [] 0 "a").2 "a" none 1)
        "a" 3 =
      (false, onSpiderSuccess (runSpider initialState "s" [] 0 "a").2 "a" none 1)) := by
  have h1 := (c2_terminal_stability
    (stopTask false (runSpider initialState "s" [] 0 "a").2 "a" 2).2 "a"
    { spider_name := "s", status := .stopped, kwargs := [], start_time := 0,
      items := [], end_time := some 2, failure_reason := none, items_count := none }
    none "e" true 3 3 (by rfl)).1 (Or.inr rfl)
  have h2 := (c2_terminal_stability
    (onSpiderSuccess (runSpider initialState "s" [] 0 "a").2 "a" none 1) "a"
    { spider_name := "s", status := .completed, kwargs := [], start_time := 0,
      items := [], end_time := some 1, failure_reason := none, items_count := none }
    none "e" true 3 3 (by rfl)).2 (Or.inl rfl)
  exact ⟨h1.1, h1.2.1, h1.2.2, h2⟩

/-- Dict assignment followed by lookup, in closed form. -/
theorem setTask_get (st : RunnerState) (id : String) (r : TaskRecord) (t : String) :
    (setTask st id r).active_tasks t = if t = id then some r else st.active_tasks t :=
  rfl

/-- State effect of `stop_task`'s first half on an unknown task: none. -/
theorem stopTaskBegin2_none (cf : Bool) (st : RunnerState) (id : String) (now : Nat)
    (h : st.active_tasks id = none) : (stopTaskBegin cf st id now).2 = st := by
  simp [stopTaskBegin, h]

/-- State effect of `stop_task`'s first half on a non-RUNNING task: none. -/
theorem stopTaskBegin2_not_running (cf : Bool) (st : RunnerState) (id : String)
    (now : Nat) (r : TaskRecord) (h : st.active_tasks id = some r)
    (hr : r.status ≠ .running) : (stopTaskBegin cf st id now).2 = st := by
  simp [stopTaskBegin, h, hr]

/-- State effect of `stop_task`'s first half on a RUNNING task with a live
crawler: status set to STOPPING. -/
theorem stopTaskBegin2_running_found (st : RunnerState) (id : String) (now : Nat)
    (r : TaskRecord) (h : st.active_tasks id = some r) (hr : r.status = .running) :
    (stopTaskBegin true st id now).2 = setTask st id { r with status := .stopping } := by
  simp [stopTaskBegin, h, hr]

/-- State effect of `stop_task`'s first half on a RUNNING task with no live
crawler: defensively finalized to STOPPED with `end_time`. -/
theorem stopTaskBegin2_running_lost (st : RunnerState) (id : String) (now : Nat)
    (r : TaskRecord) (h : st.active_tasks id = some r) (hr : r.status = .running) :
    (stopTaskBegin false st id now).2 =
      setTask st id { r with status := .stopped, end_time := some now } := by
  simp [stopTaskBegin, h, hr]

/-- Helper for C3: every single registry operation preserves the
end-time-iff-terminal invariant. -/
theorem applyOp_StateInv (st : RunnerState) (op : Op) (hinv : StateInv st) :
    StateInv (applyOp st op) := by
  cases op with
  | create spider kwargs now tid =>
      intro id r hr
      simp only [applyOp, runSpider] at hr
      rw [setTask_get] at hr
      split at hr
      · cases hr
        simp [TaskRecord.endTimeIffTerminal, TaskStatus.isTerminal]
      · exact hinv id r hr
  | success tid res now =>
      intro id r hr
      simp only [applyOp, onSpiderSuccess] at hr
      split at hr
      · exact hinv id r hr
      · unfold updateTaskStatus at hr
        cases hq : st.active_tasks tid with
        | none =>
            rw [hq] at hr
            exact hinv id r hr
        | some q =>
            rw [hq] at hr
            simp only [setTask_get] at hr
            split at hr
            · cases hr
              simp [TaskRecord.endTimeIffTerminal, TaskStatus.isTerminal]
            · exact hinv id r hr
  | error tid msg now =>
      intro id r hr
      simp only [applyOp, onSpiderError] at hr
      split at hr
      · exact hinv id r hr
      · unfold updateTaskStatus at hr
        cases hq : st.active_tasks tid with
        | none =>
            rw [hq] at hr
            exact hinv id r hr
        | some q =>
            rw [hq] at hr
            simp only [setTask_get] at hr
            split at hr
            · cases hr
              simp [TaskRecord.endTimeIffTerminal, TaskStatus.isTerminal]
            · exact hinv id r hr
  | beginStop cf tid now =>
      intro id r hr
      simp only [applyOp] at hr
      cases hq : st.active_tasks tid with
      | none =>
          rw [stopTaskBegin2_none cf st tid now hq] at hr
          exact hinv id r hr
      | some q =>
          by_cases hs : q.status = TaskStatus.running
          · have hqinv := hinv tid q hq
            have hqe : q.end_time.isSome = false := by
              rw [TaskRecord.endTimeIffTerminal, hs] at hqinv
              simpa [TaskStatus.isTerminal] using hqinv
            cases cf with
            | true =>
                rw [stopTaskBegin2_running_found st tid now q hq hs, setTask_get] at hr
                split at hr
                · cases hr
                  simp [TaskRecord.endTimeIffTerminal, TaskStatus.isTerminal, hqe]
                · exact hinv id r hr
            | false =>
                rw [stopTaskBegin2_running_lost st tid now q hq hs, setTask_get] at hr
                split at hr
                · cases hr
                  simp [TaskRecord.endTimeIffTerminal, TaskStatus.isTerminal]
                · exact hinv id r hr
          · rw [stopTaskBegin2_not_running cf st tid now q hq hs] at hr
            exact hinv id r hr
  | finalizeStop tid now =>
      intro id r hr
      simp only [applyOp, stopTaskFinalize] at hr
      cases hq : st.active_tasks tid with
      | none =>
          rw [hq] at hr
          exact hinv id r hr
      | some q =>
          rw [hq] at hr
          simp only [setTask_get] at hr
          split at hr
          · cases hr
            simp [TaskRecord.endTimeIffTerminal, TaskStatus.isTerminal]
          · exact hinv id r hr
  | store up tid items now =>
      intro id r hr
      simp only [applyOp, storeCrawlResults] at hr
      by_cases hup : up = true
      · simp only [hup, if_true] at hr
        cases hq : st.active_tasks tid with
        | none =>
            simp only [hq] at hr
            exact hinv id r hr
        | some q =>
            simp only [hq, setTask_get] at hr
            split at hr
            · cases hr
              have hqinv := hinv tid q hq
              simpa [TaskRecord.endTimeIffTerminal] using hqinv
            · exact hinv id r hr
      · simp only [hup, if_false, Bool.false_eq_true] at hr
        exact hinv id r hr

/-- C3: starting from any state satisfying the invariant, after any sequence
of registry operations every task record has `end_time` set exactly when its
status is terminal (COMPLETED, FAILED, STOPPED) and absent otherwise
(RUNNING, STOPPING). -/
theorem c3_end_time_iff_terminal (ops : List Op) (st : RunnerState)
    (hinv : StateInv st) : StateInv (runOps st ops) := by
  induction ops generalizing st with
  | nil => exact hinv
  | cons op rest ih => exact ih (applyOp st op) (applyOp_StateInv st op hinv)

/-- C3 witness: the empty initial state satisfies the invariant, and so does
the state reached by a concrete launch/callback/stop/ingest sequence. -/
theorem c3_witness :
    StateInv initialState ∧
    StateInv (runOps initialState
      [Op.create "s" [] 0 "a", Op.store true "a" ["x", "y"] 1, Op.success "a" none 2,
       Op.create "s2" [] 3 "b", Op.beginStop true "b" 4, Op.finalizeStop "b" 5]) := by
  have h0 : StateInv initialState := by
    intro id r hr
    simp [initialState] at hr
  exact ⟨h0, c3_end_time_iff_terminal
    [Op.create "s" [] 0 "a", Op.store true "a" ["x", "y"] 1, Op.success "a" none 2,
     Op.create "s2" [] 3 "b", Op.beginStop true "b" 4, Op.finalizeStop "b" 5]
    initialState h0⟩

/-- C4: evaluating the code on the failing input — a task whose runtime
delivers five records, arriving (as `StoragePipeline.process_item` delivers
them) as five one-record ingest calls: Redis accumulates all five records,
but `items_count` is overwritten with the size of the last batch and ends at
1, not 5. -/
theorem c4_items_count_is_last_batch_size :
    (((runOps (runSpider initialState "s" [] 0 "a").2
        (List.replicate 5 (Op.store true "a" ["x"] 1))).active_tasks "a").map
      (fun r => r.items_count)) = some (some 1) ∧
    ((runOps (runSpider initialState "s" [] 0 "a").2
        (List.replicate 5 (Op.store true "a" ["x"] 1))).redisLists
      ("crawl_results:" ++ "a")).length = 5 := by
  constructor
  · rfl
  · rfl

end SpiderDemo
